import Mathlib

/-!
Verification of the complete-set arbitrage engine (PredictionMarkets).

The Python source is shallowly embedded: `decimal.Decimal` prices and sizes
become `ℚ` (Decimal addition and multiplication on quote-sized operands are
exact, so `ℚ` is a faithful model), Python dicts and sets become association
lists and lists of keys, and each method becomes a pure function on an
explicit state record.  Clock reads (`datetime.now()`) become an explicit
`now : ℚ` parameter, and the autoincrement ids and uuid-derived order ids
become explicit parameters.  Effects on the venue and the SQLite ledger are
recorded as an `EngineAction` trace.
-/

/-- Top-of-book data for one outcome token
(src/marketdata/orderbook_state.py, `TokenBook`). -/
structure TokenBook where
  token_id : String
  best_bid_price : Option ℚ := none
  best_bid_size : Option ℚ := none
  best_ask_price : Option ℚ := none
  best_ask_size : Option ℚ := none
  last_update : Option ℚ := none
  sequence : Option ℤ := none
  deriving DecidableEq

/-- A market and its two token books
(src/marketdata/orderbook_state.py, `MarketBook`). -/
structure MarketBook where
  market_id : String
  question : String
  yes_token : TokenBook
  no_token : TokenBook
  active : Bool := true
  deriving DecidableEq

/-- Both YES and NO have a best ask with a size
(`MarketBook.has_valid_quotes`). -/
def MarketBook.has_valid_quotes (m : MarketBook) : Bool :=
  m.yes_token.best_ask_price.isSome && m.yes_token.best_ask_size.isSome &&
  m.no_token.best_ask_price.isSome && m.no_token.best_ask_size.isSome

/-- Cost to buy one complete set, defined only when both asks are present
(`MarketBook.sum_ask_cost`). -/
def MarketBook.sum_ask_cost (m : MarketBook) : Option ℚ :=
  match m.yes_token.best_ask_price, m.no_token.best_ask_price,
        m.yes_token.best_ask_size, m.no_token.best_ask_size with
  | some ya, some na, some _, some _ => some (ya + na)
  | _, _, _, _ => none

/-- Minimum ask size across both sides (`MarketBook.min_available_size`). -/
def MarketBook.min_available_size (m : MarketBook) : Option ℚ :=
  match m.yes_token.best_ask_price, m.no_token.best_ask_price,
        m.yes_token.best_ask_size, m.no_token.best_ask_size with
  | some _, some _, some ys, some ns => some (min ys ns)
  | _, _, _, _ => none

/-- Decision tag attached to every evaluation
(src/strategy/signal_engine.py, `SignalDecision`). -/
inductive SignalDecision where
  | TRADE
  | SKIP_NO_QUOTES
  | SKIP_INSUFFICIENT_EDGE
  | SKIP_INSUFFICIENT_DEPTH
  | SKIP_IN_COOLDOWN
  | SKIP_IN_FLIGHT
  | SKIP_MARKET_INACTIVE
  deriving DecidableEq

/-- Immutable record of one evaluation (src/strategy/signal_engine.py,
`TradeSignal`).  The free-form numeric interpolation in `reason` strings is
elided; the constant prefix is kept. -/
structure TradeSignal where
  market_id : String
  timestamp : ℚ
  decision : SignalDecision
  yes_ask : Option ℚ
  no_ask : Option ℚ
  yes_size : Option ℚ
  no_size : Option ℚ
  sum_cost : Option ℚ
  edge : Option ℚ
  cost_buffer : ℚ
  reason : String
  deriving DecidableEq

/-- Property `TradeSignal.is_tradeable`. -/
def TradeSignal.is_tradeable (s : TradeSignal) : Bool :=
  s.decision = SignalDecision.TRADE

/-- Strategy thresholds (src/config.py, `StrategyConfig`). -/
structure StrategyConfig where
  min_edge : ℚ := 1 / 100
  cost_buffer : ℚ := 5 / 1000
  min_depth : ℚ := 10
  deriving DecidableEq

/-- Mutable gating state owned by the signal engine:
`SignalEngine._in_flight` and `SignalEngine._cooldowns`. -/
structure SignalGating where
  in_flight : List String := []
  cooldowns : List (String × ℚ) := []
  deriving DecidableEq

/-- Association-list lookup, the model of Python `dict.get`. -/
def lookupAssoc {α : Type} : List (String × α) → String → Option α
  | [], _ => none
  | (k2, v) :: rest, k => if k = k2 then some v else lookupAssoc rest k

/-- Association-list assignment, the model of Python `dict[k] = v`. -/
def setAssoc {α : Type} : List (String × α) → String → α → List (String × α)
  | [], k, v => [(k, v)]
  | (k2, v2) :: rest, k, v =>
      if k = k2 then (k, v) :: rest else (k2, v2) :: setAssoc rest k v

/-- The arbitrage predicate (src/strategy/signal_engine.py,
`SignalEngine.evaluate`).  The engine fields `config`, `fee_rate` and the
mutable gating state are explicit parameters; `now` is the value of
`datetime.now().timestamp()`.  The source guards with
`market.has_valid_quotes`; here the same guard is the four-way option match
(the catch-all branch is exactly the `has_valid_quotes` failure).  The
source locals `sum_cost`, `total_fee`, `edge` and `min_size` are inlined:
`edge = 1 - sum_cost - sum_cost * fee_rate - cost_buffer`. -/
def SignalEngine.evaluate (cfg : StrategyConfig) (fee_rate : ℚ)
    (g : SignalGating) (market : MarketBook) (now : ℚ) : TradeSignal :=
  if market.active = false then
    { market_id := market.market_id, timestamp := now,
      decision := .SKIP_MARKET_INACTIVE,
      yes_ask := none, no_ask := none, yes_size := none, no_size := none,
      sum_cost := none, edge := none, cost_buffer := cfg.cost_buffer,
      reason := "Market is inactive" }
  else
    match market.yes_token.best_ask_price, market.no_token.best_ask_price,
          market.yes_token.best_ask_size, market.no_token.best_ask_size with
    | some ya, some na, some ys, some ns =>
      if market.market_id ∈ g.in_flight then
        { market_id := market.market_id, timestamp := now,
          decision := .SKIP_IN_FLIGHT,
          yes_ask := some ya, no_ask := some na,
          yes_size := some ys, no_size := some ns,
          sum_cost := some (ya + na), edge := none,
          cost_buffer := cfg.cost_buffer,
          reason := "Orders currently in flight" }
      else if now < (lookupAssoc g.cooldowns market.market_id).getD 0 then
        { market_id := market.market_id, timestamp := now,
          decision := .SKIP_IN_COOLDOWN,
          yes_ask := some ya, no_ask := some na,
          yes_size := some ys, no_size := some ns,
          sum_cost := some (ya + na), edge := none,
          cost_buffer := cfg.cost_buffer,
          reason := "In cooldown" }
      else
        if 1 - (ya + na) - (ya + na) * fee_rate - cfg.cost_buffer < cfg.min_edge then
          { market_id := market.market_id, timestamp := now,
            decision := .SKIP_INSUFFICIENT_EDGE,
            yes_ask := some ya, no_ask := some na,
            yes_size := some ys, no_size := some ns,
            sum_cost := some (ya + na),
            edge := some (1 - (ya + na) - (ya + na) * fee_rate - cfg.cost_buffer),
            cost_buffer := cfg.cost_buffer,
            reason := "Edge below min_edge" }
        else
          if min ys ns < cfg.min_depth then
            { market_id := market.market_id, timestamp := now,
              decision := .SKIP_INSUFFICIENT_DEPTH,
              yes_ask := some ya, no_ask := some na,
              yes_size := some ys, no_size := some ns,
              sum_cost := some (ya + na),
              edge := some (1 - (ya + na) - (ya + na) * fee_rate - cfg.cost_buffer),
              cost_buffer := cfg.cost_buffer,
              reason := "Min depth below required" }
          else
            { market_id := market.market_id, timestamp := now,
              decision := .TRADE,
              yes_ask := some ya, no_ask := some na,
              yes_size := some ys, no_size := some ns,
              sum_cost := some (ya + na),
              edge := some (1 - (ya + na) - (ya + na) * fee_rate - cfg.cost_buffer),
              cost_buffer := cfg.cost_buffer,
              reason := "Opportunity detected" }
    | _, _, _, _ =>
      { market_id := market.market_id, timestamp := now,
        decision := .SKIP_NO_QUOTES,
        yes_ask := market.yes_token.best_ask_price,
        no_ask := market.no_token.best_ask_price,
        yes_size := market.yes_token.best_ask_size,
        no_size := market.no_token.best_ask_size,
        sum_cost := none, edge := none, cost_buffer := cfg.cost_buffer,
        reason := "Missing quotes for one or both tokens" }

/-- Gate 1 of the specified decision order: the market is inactive. -/
def specGateInactive (market : MarketBook) : Bool :=
  market.active = false

/-- Gate 2: either side lacks a best ask. -/
def specGateNoQuotes (market : MarketBook) : Bool :=
  !market.has_valid_quotes

/-- Gate 3: the market has orders in flight. -/
def specGateInFlight (g : SignalGating) (market : MarketBook) : Bool :=
  market.market_id ∈ g.in_flight

/-- Gate 4: `now` is before the market's cooldown expiry. -/
def specGateCooldown (g : SignalGating) (market : MarketBook) (now : ℚ) : Bool :=
  now < (lookupAssoc g.cooldowns market.market_id).getD 0

/-- The edge formula of the spec, defined when both asks are present. -/
def specEdge (cfg : StrategyConfig) (fee_rate : ℚ) (market : MarketBook) : Option ℚ :=
  match market.sum_ask_cost with
  | some sc => some (1 - sc - sc * fee_rate - cfg.cost_buffer)
  | none => none

/-- Gate 5: the computed edge is below `min_edge`. -/
def specGateEdge (cfg : StrategyConfig) (fee_rate : ℚ) (market : MarketBook) : Bool :=
  match specEdge cfg fee_rate market with
  | some e => e < cfg.min_edge
  | none => false

/-- Gate 6: the minimum available size is below `min_depth`. -/
def specGateDepth (cfg : StrategyConfig) (market : MarketBook) : Bool :=
  match market.min_available_size with
  | some s => s < cfg.min_depth
  | none => false

/-- The decision order stated in the spec, written as a literal first-match
chain over the six named gating predicates.  This definition follows the
spec's words; `SignalEngine.evaluate` is compared against it. -/
def specDecisionOrder (cfg : StrategyConfig) (fee_rate : ℚ) (g : SignalGating)
    (market : MarketBook) (now : ℚ) : SignalDecision :=
  if specGateInactive market then .SKIP_MARKET_INACTIVE
  else if specGateNoQuotes market then .SKIP_NO_QUOTES
  else if specGateInFlight g market then .SKIP_IN_FLIGHT
  else if specGateCooldown g market now then .SKIP_IN_COOLDOWN
  else if specGateEdge cfg fee_rate market then .SKIP_INSUFFICIENT_EDGE
  else if specGateDepth cfg market then .SKIP_INSUFFICIENT_DEPTH
  else .TRADE

/-- C1: every TRADE signal satisfies the exact accounting identity
`yes_ask + no_ask + (yes_ask + no_ask) * fee_rate + cost_buffer + edge = 1`
together with `edge ≥ min_edge` and `min yes_size no_size ≥ min_depth`. -/
theorem trade_signal_accounting (cfg : StrategyConfig) (fee_rate : ℚ)
    (g : SignalGating) (market : MarketBook) (now : ℚ)
    (h : (SignalEngine.evaluate cfg fee_rate g market now).decision =
          SignalDecision.TRADE) :
    ∃ ya na ys ns e,
      (SignalEngine.evaluate cfg fee_rate g market now).yes_ask = some ya ∧
      (SignalEngine.evaluate cfg fee_rate g market now).no_ask = some na ∧
      (SignalEngine.evaluate cfg fee_rate g market now).yes_size = some ys ∧
      (SignalEngine.evaluate cfg fee_rate g market now).no_size = some ns ∧
      (SignalEngine.evaluate cfg fee_rate g market now).edge = some e ∧
      ya + na + (ya + na) * fee_rate + cfg.cost_buffer + e = 1 ∧
      cfg.min_edge ≤ e ∧
      cfg.min_depth ≤ min ys ns := by
  set s := SignalEngine.evaluate cfg fee_rate g market now with hs
  unfold SignalEngine.evaluate at hs
  split at hs
  · rw [hs] at h; simp at h
  · split at hs
    · split at hs
      · rw [hs] at h; simp at h
      · split at hs
        · rw [hs] at h; simp at h
        · split at hs
          · rw [hs] at h; simp at h
          · split at hs
            · rw [hs] at h; simp at h
            · rename_i hedge hdepth
              rw [hs]
              exact ⟨_, _, _, _, _, rfl, rfl, rfl, rfl, rfl, by ring,
                not_lt.mp hedge, not_lt.mp hdepth⟩
    · rw [hs] at h; simp at h

/-- Market fixture used by witnesses: YES ask 0.45 size 100, NO ask 0.50
size 100, the clear-arbitrage scenario of the spec. -/
def sampleMarket : MarketBook :=
  { market_id := "m1", question := "q",
    yes_token := { token_id := "yt", best_ask_price := some (45/100),
                   best_ask_size := some 100 },
    no_token := { token_id := "nt", best_ask_price := some (50/100),
                  best_ask_size := some 100 } }

/-- Witness for C1: a concrete trading market hits the TRADE branch and the
accounting identity. -/
theorem trade_signal_accounting_witness :
    ∃ ya na ys ns e,
      (SignalEngine.evaluate {} (2/100) {} sampleMarket 1).yes_ask = some ya ∧
      (SignalEngine.evaluate {} (2/100) {} sampleMarket 1).no_ask = some na ∧
      (SignalEngine.evaluate {} (2/100) {} sampleMarket 1).yes_size = some ys ∧
      (SignalEngine.evaluate {} (2/100) {} sampleMarket 1).no_size = some ns ∧
      (SignalEngine.evaluate {} (2/100) {} sampleMarket 1).edge = some e ∧
      ya + na + (ya + na) * (2/100) + ({} : StrategyConfig).cost_buffer + e = 1 ∧
      ({} : StrategyConfig).min_edge ≤ e ∧
      ({} : StrategyConfig).min_depth ≤ min ys ns :=
  trade_signal_accounting {} (2/100) {} sampleMarket 1
    (by norm_num [SignalEngine.evaluate, sampleMarket, lookupAssoc])

/-- C2: the decision emitted by `SignalEngine.evaluate` is exactly the
first-match chain over the six gating predicates in the specified order
(inactive, no quotes, in flight, in cooldown, insufficient edge,
insufficient depth, otherwise TRADE), so for every non-TRADE signal the
named predicate is the first one that holds. -/
theorem evaluate_decision_first_match (cfg : StrategyConfig) (fee_rate : ℚ)
    (g : SignalGating) (market : MarketBook) (now : ℚ) :
    (SignalEngine.evaluate cfg fee_rate g market now).decision =
      specDecisionOrder cfg fee_rate g market now := by
  unfold SignalEngine.evaluate specDecisionOrder specGateInactive
    specGateNoQuotes specGateInFlight specGateCooldown specGateEdge
    specGateDepth specEdge MarketBook.has_valid_quotes
    MarketBook.sum_ask_cost MarketBook.min_available_size
  rcases market with ⟨mid, q, yt, nt, act⟩
  rcases hya : yt.best_ask_price with _ | ya <;>
    rcases hna : nt.best_ask_price with _ | na <;>
      rcases hys : yt.best_ask_size with _ | ys <;>
        rcases hns : nt.best_ask_size with _ | ns <;>
          simp [hya, hna, hys, hns] <;>
            split_ifs <;> simp_all

/-- One price level of a venue book message (src/adapters/base.py,
`BookLevel`). -/
structure BookLevel where
  price : ℚ
  size : ℚ
  deriving DecidableEq

/-- A venue book snapshot (src/adapters/base.py, `OrderBookSnapshot`). -/
structure OrderBookSnapshot where
  market_id : String
  token_id : String
  bids : List BookLevel
  asks : List BookLevel
  timestamp : ℚ
  sequence : Option ℤ := none
  deriving DecidableEq

/-- The two dictionaries of src/marketdata/orderbook_state.py,
`OrderBookState`: `_markets` and `_token_to_market`. -/
structure OrderBookState where
  markets : List (String × MarketBook) := []
  token_to_market : List (String × String) := []
  deriving DecidableEq

/-- The token-book mutation performed inside
`OrderBookState.update_from_snapshot`: replace each side's top of book with
the head of the snapshot's level list (or clear it when the list is empty)
and stamp `last_update` and `sequence`. -/
def applySnapshotToToken (t : TokenBook) (snap : OrderBookSnapshot) : TokenBook :=
  { t with
    best_ask_price := snap.asks.head?.map BookLevel.price,
    best_ask_size := snap.asks.head?.map BookLevel.size,
    best_bid_price := snap.bids.head?.map BookLevel.price,
    best_bid_size := snap.bids.head?.map BookLevel.size,
    last_update := some snap.timestamp,
    sequence := snap.sequence }

/-- Update path of the order book (src/marketdata/orderbook_state.py,
`OrderBookState.update_from_snapshot`): demultiplex via `_token_to_market`,
pick the matching token book, overwrite its top of book.  Returns the
affected `market_id` (or none for an unknown token) and the new state. -/
def OrderBookState.update_from_snapshot (st : OrderBookState)
    (snap : OrderBookSnapshot) : Option String × OrderBookState :=
  match lookupAssoc st.token_to_market snap.token_id with
  | none => (none, st)
  | some market_id =>
    match lookupAssoc st.markets market_id with
    | none => (none, st)
    | some market =>
      if snap.token_id = market.yes_token.token_id then
        let m2 : MarketBook :=
          { market with yes_token := applySnapshotToToken market.yes_token snap }
        (some market_id, { st with markets := setAssoc st.markets market_id m2 })
      else if snap.token_id = market.no_token.token_id then
        let m2 : MarketBook :=
          { market with no_token := applySnapshotToToken market.no_token snap }
        (some market_id, { st with markets := setAssoc st.markets market_id m2 })
      else
        (none, st)

/-- Assigning a key makes it look up to the assigned value. -/
theorem lookupAssoc_setAssoc {α : Type} (l : List (String × α)) (k : String)
    (v : α) : lookupAssoc (setAssoc l k v) k = some v := by
  induction l with
  | nil => simp [setAssoc, lookupAssoc]
  | cons hd tl ih =>
    rcases hd with ⟨k2, v2⟩
    by_cases hk : k = k2
    · simp [setAssoc, lookupAssoc, hk]
    · simp [setAssoc, lookupAssoc, hk, ih]

/-- Book state fixture for C3: one market whose YES token book currently
stores `sequence = 5` and ask 0.40. -/
def staleBookState : OrderBookState :=
  { markets := [("m1",
      { market_id := "m1", question := "q",
        yes_token := { token_id := "yt", best_ask_price := some (40/100),
                       best_ask_size := some 100, last_update := some 10,
                       sequence := some 5 },
        no_token := { token_id := "nt" } })],
    token_to_market := [("yt", "m1"), ("nt", "m1")] }

/-- Snapshot fixture for C3: same token, sequence 3 (≤ the stored 5), new
ask 0.90. -/
def staleSnapshot : OrderBookSnapshot :=
  { market_id := "m1", token_id := "yt",
    bids := [], asks := [{ price := 90/100, size := 7 }],
    timestamp := 50, sequence := some 3 }

/-- Counterexample to C3: a snapshot whose sequence (3) is ≤ the stored
sequence (5) is applied anyway — the stored TokenBook is overwritten, not
left unchanged. -/
theorem update_from_snapshot_stale_applied_cex :
    ((3 : ℤ) ≤ 5) ∧
    (staleBookState.update_from_snapshot staleSnapshot).1 = some "m1" ∧
    (lookupAssoc (staleBookState.update_from_snapshot staleSnapshot).2.markets
        "m1").map MarketBook.yes_token =
      some { token_id := "yt", best_ask_price := some (90/100),
             best_ask_size := some 7, best_bid_price := none,
             best_bid_size := none, last_update := some 50,
             sequence := some 3 } := by
  refine ⟨by norm_num, ?_, ?_⟩ <;>
    norm_num [staleBookState, staleSnapshot,
      OrderBookState.update_from_snapshot, lookupAssoc, setAssoc,
      applySnapshotToToken]

/-- C3 amended: `update_from_snapshot` performs no sequence comparison at
all — every snapshot for a registered token is applied unconditionally, and
the affected TokenBook's top of book, `last_update` and `sequence` are
overwritten with the snapshot's values even when the incoming sequence is ≤
the stored one. -/
theorem update_from_snapshot_overwrites (st : OrderBookState)
    (snap : OrderBookSnapshot) (mid : String)
    (h : (st.update_from_snapshot snap).1 = some mid) :
    ∃ m : MarketBook,
      lookupAssoc (st.update_from_snapshot snap).2.markets mid = some m ∧
      (if snap.token_id = m.yes_token.token_id then m.yes_token
       else m.no_token) =
        { (if snap.token_id = m.yes_token.token_id then m.yes_token
           else m.no_token) with
          best_ask_price := snap.asks.head?.map BookLevel.price,
          best_ask_size := snap.asks.head?.map BookLevel.size,
          best_bid_price := snap.bids.head?.map BookLevel.price,
          best_bid_size := snap.bids.head?.map BookLevel.size,
          last_update := some snap.timestamp,
          sequence := snap.sequence } := by
  unfold OrderBookState.update_from_snapshot at h ⊢
  split at h
  · simp at h
  · rename_i market_id hmap
    split at h
    · simp at h
    · rename_i market hmkt
      split at h
      · rename_i hyes
        simp only [Option.some.injEq] at h
        subst h
        refine ⟨{ market with
          yes_token := applySnapshotToToken market.yes_token snap }, ?_, ?_⟩
        · simp only [if_pos hyes]
          simp [lookupAssoc_setAssoc]
        · simp [applySnapshotToToken, hyes]
      · split at h
        · rename_i hyes hno
          simp only [Option.some.injEq] at h
          subst h
          refine ⟨{ market with
            no_token := applySnapshotToToken market.no_token snap }, ?_, ?_⟩
          · simp only [if_neg hyes, if_pos hno]
            simp [lookupAssoc_setAssoc]
          · simp [applySnapshotToToken, hyes]
        · simp at h

/-- Witness for the amended C3 at the stale-sequence fixture. -/
theorem update_from_snapshot_overwrites_witness :
    ∃ m : MarketBook,
      lookupAssoc
        (staleBookState.update_from_snapshot staleSnapshot).2.markets "m1" =
          some m ∧
      (if staleSnapshot.token_id = m.yes_token.token_id then m.yes_token
       else m.no_token) =
        { (if staleSnapshot.token_id = m.yes_token.token_id then m.yes_token
           else m.no_token) with
          best_ask_price := staleSnapshot.asks.head?.map BookLevel.price,
          best_ask_size := staleSnapshot.asks.head?.map BookLevel.size,
          best_bid_price := staleSnapshot.bids.head?.map BookLevel.price,
          best_bid_size := staleSnapshot.bids.head?.map BookLevel.size,
          last_update := some staleSnapshot.timestamp,
          sequence := staleSnapshot.sequence } :=
  update_from_snapshot_overwrites staleBookState staleSnapshot "m1"
    (by norm_num [staleBookState, staleSnapshot,
      OrderBookState.update_from_snapshot, lookupAssoc])

/-- Order side (src/adapters/base.py, `OrderSide`); the engine only issues
BUY. -/
inductive OrderSide where
  | BUY
  | SELL
  deriving DecidableEq

/-- Order type (src/adapters/base.py, `OrderType`). -/
inductive OrderType where
  | LIMIT
  | MARKET
  | IOC
  deriving DecidableEq

/-- Order status (src/adapters/base.py, `OrderStatus`). -/
inductive OrderStatus where
  | PENDING
  | OPEN
  | FILLED
  | PARTIALLY_FILLED
  | CANCELLED
  | REJECTED
  | EXPIRED
  deriving DecidableEq

/-- A venue order (src/adapters/base.py, `Order`). -/
structure Order where
  order_id : String
  market_id : String
  token_id : String
  side : OrderSide
  order_type : OrderType
  price : ℚ
  size : ℚ
  status : OrderStatus
  filled_size : ℚ := 0
  avg_fill_price : Option ℚ := none
  fee : ℚ := 0
  created_at : Option ℚ := none
  updated_at : Option ℚ := none
  deriving DecidableEq

/-- Execution parameters (src/config.py, `ExecutionConfig`); the fields not
read by the modelled paths (`max_attempts_per_round`,
`max_inflight_seconds`) are omitted. -/
structure ExecutionConfig where
  order_size : ℚ := 10
  order_timeout_seconds : ℚ := 5
  cooldown_seconds : ℚ := 2
  deriving DecidableEq

/-- Risk parameters (src/config.py, `RiskConfig`).  The source field names
`halt_on_partial_fill` and `max_partial_fills_per_hour` are kept in camel
case. -/
structure RiskConfig where
  max_daily_notional : ℚ := 1000
  max_open_positions : ℕ := 5
  haltOnPartialFill : Bool := true
  maxPartialFillsPerHour : ℕ := 3
  max_rejects_per_hour : ℕ := 10
  max_ws_disconnects_per_hour : ℕ := 5
  deriving DecidableEq

/-- Per-market execution state (src/execution/executor.py,
`ExecutionState`). -/
inductive ExecutionState where
  | IDLE
  | SIGNAL_DETECTED
  | PLACING_ORDERS
  | WAITING_FILLS
  | SUCCESS
  | PARTIAL_FILL_PROTECT
  | FAILED
  | COOLDOWN
  deriving DecidableEq

/-- Mutable state of the execution engine (`ExecutionEngine._state`,
`_halted`, `_daily_notional`, `_open_positions`) together with the
signal-engine gating it mutates through `set_in_flight` /
`clear_in_flight` / `set_cooldown`. -/
structure EngineState where
  state : List (String × ExecutionState) := []
  halted : Bool := false
  daily_notional : ℚ := 0
  open_positions : ℕ := 0
  gating : SignalGating := {}
  deriving DecidableEq

/-- Fresh engine state (`ExecutionEngine.__init__`). -/
def ExecutionEngine.init : EngineState := {}

/-- Operator halt (`ExecutionEngine.halt`). -/
def ExecutionEngine.halt (st : EngineState) : EngineState :=
  { st with halted := true }

/-- Operator resume (`ExecutionEngine.resume`). -/
def ExecutionEngine.resume (st : EngineState) : EngineState :=
  { st with halted := false }

/-- Per-market state read (`ExecutionEngine.get_state`), defaulting to
IDLE. -/
def ExecutionEngine.get_state (st : EngineState) (market_id : String) :
    ExecutionState :=
  (lookupAssoc st.state market_id).getD .IDLE

/-- Gating mutator `SignalEngine.set_in_flight` (set add). -/
def SignalGating.setInFlight (g : SignalGating) (market_id : String) :
    SignalGating :=
  { g with in_flight := g.in_flight.insert market_id }

/-- Gating mutator `SignalEngine.clear_in_flight` (set discard). -/
def SignalGating.clearInFlight (g : SignalGating) (market_id : String) :
    SignalGating :=
  { g with in_flight := g.in_flight.erase market_id }

/-- Gating mutator `SignalEngine.set_cooldown`: the stored expiry is the
current time plus the duration. -/
def SignalGating.setCooldown (g : SignalGating) (market_id : String)
    (untilTime : ℚ) : SignalGating :=
  { g with cooldowns := setAssoc g.cooldowns market_id untilTime }

/-- Externally visible effects of the execution engine — venue calls,
ledger writes and gating mutations — recorded as a trace. -/
inductive EngineAction where
  | setInFlight (market_id : String)
  | clearInFlight (market_id : String)
  | setCooldown (market_id : String) (untilTime : ℚ)
  | createTradeset (market_id : String) (tradeset_id : ℕ)
  | logOrder (order_id : String) (tradeset_id : ℕ) (market_id : String)
      (token_id : String) (price : ℚ) (size : ℚ) (status : OrderStatus)
  | placeOrder (market_id : String) (token_id : String) (price : ℚ) (size : ℚ)
  | cancelOrder (order_id : String)
  | updateTradeset (tradeset_id : ℕ) (status : String)
      (yes_cost : Option ℚ) (no_cost : Option ℚ)
      (total_fees : Option ℚ) (realized_pnl : Option ℚ)
  | logRiskEvent (event_type : String) (market_id : Option String)
  deriving DecidableEq

/-- Result of one execution attempt (src/execution/executor.py,
`ExecutionResult`). -/
structure ExecutionResult where
  success : Bool
  tradeset_id : Option ℕ := none
  yes_order : Option Order := none
  no_order : Option Order := none
  error : Option String := none
  deriving DecidableEq

/-- Pre-trade risk check (`ExecutionEngine._check_risk_limits`).  The
rolling-hour risk-event counts read from the ledger via
`Ledger.get_risk_events_count(hours=1)` are the `riskCounts` parameter;
the source computes `notional = order_size * price * 2` with
`price = yes_ask + no_ask`. -/
def ExecutionEngine.check_risk_limits (rc : RiskConfig)
    (riskCounts : String → ℕ) (daily_notional : ℚ) (open_positions : ℕ)
    (order_size price : ℚ) : Option String :=
  if rc.max_daily_notional < daily_notional + order_size * price * 2 then
    some "Would exceed daily notional limit"
  else if rc.max_open_positions ≤ open_positions then
    some "At max open positions"
  else if rc.maxPartialFillsPerHour ≤ riskCounts "partial_fill" then
    some "Too many partial fills in the last hour"
  else if rc.max_rejects_per_hour ≤ riskCounts "reject" then
    some "Too many order rejects in the last hour"
  else if rc.max_ws_disconnects_per_hour ≤ riskCounts "ws_disconnect" then
    some "Too many WebSocket disconnects in the last hour"
  else none

/-- Partial-fill recovery (`ExecutionEngine._handle_partial_fill`): enter
PARTIAL_FILL_PROTECT, attempt to cancel each leg whose status is still
OPEN, PENDING or PARTIALLY_FILLED, mark the tradeset `partial_fill`, and
latch the engine halt when `halt_on_partial_fill` is configured. -/
def ExecutionEngine.handlePartialFill (rc : RiskConfig) (st : EngineState)
    (market_id : String) (tradeset_id : ℕ)
    (yes_order no_order : Option Order) : EngineState × List EngineAction :=
  let st1 : EngineState :=
    { st with state := setAssoc st.state market_id .PARTIAL_FILL_PROTECT }
  let yesActs : List EngineAction :=
    match yes_order with
    | some o =>
      if o.status = .OPEN ∨ o.status = .PENDING ∨ o.status = .PARTIALLY_FILLED
      then [.cancelOrder o.order_id] else []
    | none => []
  let noActs : List EngineAction :=
    match no_order with
    | some o =>
      if o.status = .OPEN ∨ o.status = .PENDING ∨ o.status = .PARTIALLY_FILLED
      then [.cancelOrder o.order_id] else []
    | none => []
  let st2 : EngineState :=
    if rc.haltOnPartialFill then ExecutionEngine.halt st1 else st1
  (st2, yesActs ++ noActs ++
    [.updateTradeset tradeset_id "partial_fill" none none none none])

/-- Paper execution (`ExecutionEngine._execute_paper`): synthesize both
orders as FILLED at the observed asks with fee `size * ask * fee_rate`,
log them, and record the tradeset `filled` with theoretical PnL
`size * 1 - yes_cost - no_cost - fees`.  The uuid-derived order ids are
the explicit `yes_order_id` / `no_order_id` parameters. -/
def ExecutionEngine.execute_paper (fee_rate : ℚ) (market_id : String)
    (yes_token_id no_token_id : String) (yes_ask no_ask : ℚ)
    (order_size : ℚ) (tradeset_id : ℕ) (yes_order_id no_order_id : String)
    (now : ℚ) : List EngineAction × Order × Order :=
  let yes_order : Order :=
    { order_id := yes_order_id, market_id := market_id,
      token_id := yes_token_id, side := .BUY, order_type := .LIMIT,
      price := yes_ask, size := order_size, status := .FILLED,
      filled_size := order_size, avg_fill_price := some yes_ask,
      fee := order_size * yes_ask * fee_rate,
      created_at := some now, updated_at := some now }
  let no_order : Order :=
    { order_id := no_order_id, market_id := market_id,
      token_id := no_token_id, side := .BUY, order_type := .LIMIT,
      price := no_ask, size := order_size, status := .FILLED,
      filled_size := order_size, avg_fill_price := some no_ask,
      fee := order_size * no_ask * fee_rate,
      created_at := some now, updated_at := some now }
  ([.logOrder yes_order_id tradeset_id market_id yes_token_id yes_ask
      order_size .FILLED,
    .logOrder no_order_id tradeset_id market_id no_token_id no_ask
      order_size .FILLED,
    .updateTradeset tradeset_id "filled"
      (some (order_size * yes_ask)) (some (order_size * no_ask))
      (some (yes_order.fee + no_order.fee))
      (some (order_size * 1 - order_size * yes_ask - order_size * no_ask -
        (yes_order.fee + no_order.fee)))],
   yes_order, no_order)

/-- Outcome of the inner `_execute_paper` / `_execute_live` call seen from
`execute_signal`: a normal return or a raised exception, with the trace it
emitted.  The only engine-state effect of the source bodies that survives
the closing COOLDOWN/IDLE reset is possibly latching `_halted` through
`_handle_partial_fill`; that effect is the `haltSet` flag. -/
inductive BodyOutcome where
  | ok (result : ExecutionResult) (acts : List EngineAction) (haltSet : Bool)
  | raised (msg : String) (acts : List EngineAction) (haltSet : Bool)
  deriving DecidableEq

/-- Top of the execution state machine (`ExecutionEngine.execute_signal`).
`tradeset_id` is the autoincrement id returned by `Ledger.create_tradeset`
and `now` the clock at the end of the attempt (read by `set_cooldown`).
The source's `finally` block always clears in-flight, sets the cooldown,
and moves the market through COOLDOWN to IDLE; the transient COOLDOWN
value held for 0.1 s is modelled by its final value IDLE. -/
def ExecutionEngine.execute_signal (ec : ExecutionConfig) (rc : RiskConfig)
    (riskCounts : String → ℕ) (st : EngineState) (signal : TradeSignal)
    (body : BodyOutcome) (tradeset_id : ℕ) (now : ℚ) :
    EngineState × List EngineAction × ExecutionResult :=
  if st.halted then
    (st, [], { success := false, error := some "Execution halted" })
  else if signal.is_tradeable = false then
    (st, [], { success := false, error := some "Signal not tradeable" })
  else
    match ExecutionEngine.check_risk_limits rc riskCounts st.daily_notional
        st.open_positions ec.order_size
        (signal.yes_ask.getD 0 + signal.no_ask.getD 0) with
    | some reason =>
      (st, [.logRiskEvent "risk_limit" (some signal.market_id)],
       { success := false, error := some reason })
    | none =>
      let pre : List EngineAction :=
        [.setInFlight signal.market_id,
         .createTradeset signal.market_id tradeset_id]
      let fin : List EngineAction :=
        [.clearInFlight signal.market_id,
         .setCooldown signal.market_id (now + ec.cooldown_seconds)]
      let st2 : EngineState :=
        { st with
          state := setAssoc st.state signal.market_id .PLACING_ORDERS,
          gating := st.gating.setInFlight signal.market_id }
      match body with
      | .ok result bacts haltSet =>
        let st3 : EngineState :=
          if result.success then
            { st2 with
              daily_notional := st2.daily_notional +
                ec.order_size * (signal.yes_ask.getD 0 + signal.no_ask.getD 0),
              open_positions := st2.open_positions + 1 }
          else st2
        let st4 : EngineState :=
          { st3 with
            halted := st3.halted || haltSet,
            state := setAssoc st3.state signal.market_id .IDLE,
            gating := (st3.gating.clearInFlight signal.market_id).setCooldown
              signal.market_id (now + ec.cooldown_seconds) }
        (st4, pre ++ bacts ++ fin, result)
      | .raised msg bacts haltSet =>
        let st4 : EngineState :=
          { st2 with
            halted := st2.halted || haltSet,
            state := setAssoc st2.state signal.market_id .IDLE,
            gating := (st2.gating.clearInFlight signal.market_id).setCooldown
              signal.market_id (now + ec.cooldown_seconds) }
        (st4,
         pre ++ bacts ++
           [.updateTradeset tradeset_id "failed" none none none none,
            .logRiskEvent "execution_error" (some signal.market_id)] ++ fin,
         { success := false, tradeset_id := some tradeset_id,
           error := some msg })

/-- C5: the risk pre-check passes exactly when the daily notional plus this
trade's notional (as the source computes it, `order_size * price * 2` with
`price = yes_ask + no_ask`) stays within `max_daily_notional`, open
positions are below `max_open_positions`, and every rolling-hour
risk-event count is under its ceiling; and when the check fails on a
tradeable signal, `execute_signal` emits exactly one `risk_limit` event —
no order placement, no tradeset creation — and returns the engine state
(gating included) unchanged. -/
theorem risk_precheck_gates (ec : ExecutionConfig) (rc : RiskConfig)
    (riskCounts : String → ℕ) (st : EngineState) (signal : TradeSignal)
    (body : BodyOutcome) (tradeset_id : ℕ) (now : ℚ) :
    (ExecutionEngine.check_risk_limits rc riskCounts st.daily_notional
        st.open_positions ec.order_size
        (signal.yes_ask.getD 0 + signal.no_ask.getD 0) = none ↔
      (st.daily_notional + ec.order_size *
          (signal.yes_ask.getD 0 + signal.no_ask.getD 0) * 2 ≤
            rc.max_daily_notional ∧
       st.open_positions < rc.max_open_positions ∧
       riskCounts "partial_fill" < rc.maxPartialFillsPerHour ∧
       riskCounts "reject" < rc.max_rejects_per_hour ∧
       riskCounts "ws_disconnect" < rc.max_ws_disconnects_per_hour)) ∧
    (∀ reason,
      st.halted = false →
      signal.is_tradeable = true →
      ExecutionEngine.check_risk_limits rc riskCounts st.daily_notional
          st.open_positions ec.order_size
          (signal.yes_ask.getD 0 + signal.no_ask.getD 0) = some reason →
      ExecutionEngine.execute_signal ec rc riskCounts st signal body
          tradeset_id now =
        (st, [.logRiskEvent "risk_limit" (some signal.market_id)],
         { success := false, error := some reason })) := by
  constructor
  · unfold ExecutionEngine.check_risk_limits
    split_ifs with h1 h2 h3 h4 h5
    · exact ⟨fun h => by simp at h,
        fun hr => absurd h1 (not_lt.mpr hr.1)⟩
    · exact ⟨fun h => by simp at h,
        fun hr => absurd h2 (not_le.mpr hr.2.1)⟩
    · exact ⟨fun h => by simp at h,
        fun hr => absurd h3 (not_le.mpr hr.2.2.1)⟩
    · exact ⟨fun h => by simp at h,
        fun hr => absurd h4 (not_le.mpr hr.2.2.2.1)⟩
    · exact ⟨fun h => by simp at h,
        fun hr => absurd h5 (not_le.mpr hr.2.2.2.2)⟩
    · exact ⟨fun _ => ⟨not_lt.mp h1, not_le.mp h2, not_le.mp h3,
        not_le.mp h4, not_le.mp h5⟩, fun _ => rfl⟩
  · intro reason hh ht hc
    unfold ExecutionEngine.execute_signal
    rw [hh, ht]
    simp [hc]

/-- Tradeable signal fixture, as produced by the TRADE branch of the
evaluation on `sampleMarket`. -/
def sampleTradeSignal : TradeSignal :=
  { market_id := "m1", timestamp := 1, decision := .TRADE,
    yes_ask := some (45/100), no_ask := some (50/100),
    yes_size := some 100, no_size := some 100,
    sum_cost := some (95/100), edge := some (26/1000),
    cost_buffer := 5/1000, reason := "Opportunity detected" }

/-- Witness for C5: with `max_open_positions = 0` the check fails on a
fresh engine and the attempt is skipped with a lone `risk_limit` event. -/
theorem risk_precheck_gates_witness :
    ExecutionEngine.execute_signal {} { max_open_positions := 0 }
        (fun _ => 0) ExecutionEngine.init sampleTradeSignal
        (BodyOutcome.ok { success := true } [] false) 1 1 =
      (ExecutionEngine.init,
       [.logRiskEvent "risk_limit" (some "m1")],
       { success := false, error := some "At max open positions" }) :=
  (risk_precheck_gates {} { max_open_positions := 0 } (fun _ => 0)
      ExecutionEngine.init sampleTradeSignal
      (BodyOutcome.ok { success := true } [] false) 1 1).2
    "At max open positions" rfl rfl
    (by norm_num [ExecutionEngine.check_risk_limits, ExecutionEngine.init,
      sampleTradeSignal])

/-- C9: paper execution synthesizes both orders FILLED at the observed asks
with fee `size * ask * fee_rate`, records the tradeset `filled` with
theoretical PnL `size * 1 - yes_cost - no_cost - fees`, and at YES ask
0.45, NO ask 0.50, size 10, fee rate 0.02 the recorded PnL is exactly
0.31; the tradeset update also flows through `execute_signal`'s trace. -/
theorem paper_execution_pnl (fee_rate : ℚ) (market_id ytid ntid : String)
    (ya na size : ℚ) (tid : ℕ) (yid nid : String) (now : ℚ)  :
    ((ExecutionEngine.execute_paper fee_rate market_id ytid ntid ya na size
        tid yid nid now).2.1.status = .FILLED ∧
     (ExecutionEngine.execute_paper fee_rate market_id ytid ntid ya na size
        tid yid nid now).2.2.status = .FILLED ∧
     (ExecutionEngine.execute_paper fee_rate market_id ytid ntid ya na size
        tid yid nid now).2.1.price = ya ∧
     (ExecutionEngine.execute_paper fee_rate market_id ytid ntid ya na size
        tid yid nid now).2.2.price = na ∧
     (ExecutionEngine.execute_paper fee_rate market_id ytid ntid ya na size
        tid yid nid now).2.1.fee = size * ya * fee_rate ∧
     (ExecutionEngine.execute_paper fee_rate market_id ytid ntid ya na size
        tid yid nid now).2.2.fee = size * na * fee_rate) ∧
    EngineAction.updateTradeset tid "filled" (some (size * ya))
        (some (size * na))
        (some (size * ya * fee_rate + size * na * fee_rate))
        (some (size * 1 - size * ya - size * na -
          (size * ya * fee_rate + size * na * fee_rate))) ∈
      (ExecutionEngine.execute_paper fee_rate market_id ytid ntid ya na size
        tid yid nid now).1 ∧
    EngineAction.updateTradeset 1 "filled" (some (45/10)) (some 5)
        (some (19/100)) (some (31/100)) ∈
      (ExecutionEngine.execute_paper (2/100) "m1" "yt" "nt" (45/100)
        (50/100) 10 1 "py" "pn" 1).1 ∧
    EngineAction.updateTradeset 1 "filled" (some (45/10)) (some 5)
        (some (19/100)) (some (31/100)) ∈
      (ExecutionEngine.execute_signal {} {} (fun _ => 0)
        ExecutionEngine.init sampleTradeSignal
        (BodyOutcome.ok { success := true, tradeset_id := some 1 }
          (ExecutionEngine.execute_paper (2/100) "m1" "yt" "nt" (45/100)
            (50/100) 10 1 "py" "pn" 1).1 false) 1 1).2.1 := by
  refine ⟨⟨rfl, rfl, rfl, rfl, rfl, rfl⟩, ?_, ?_, ?_⟩
  · simp [ExecutionEngine.execute_paper]
  · norm_num [ExecutionEngine.execute_paper]
  · norm_num [ExecutionEngine.execute_paper, ExecutionEngine.execute_signal,
      ExecutionEngine.check_risk_limits, ExecutionEngine.init,
      sampleTradeSignal, TradeSignal.is_tradeable]

/-- A halted engine refuses every signal: no actions, state unchanged. -/
theorem execute_signal_when_halted (ec : ExecutionConfig) (rc : RiskConfig)
    (riskCounts : String → ℕ) (st : EngineState) (signal : TradeSignal)
    (body : BodyOutcome) (tradeset_id : ℕ) (now : ℚ)
    (h : st.halted = true) :
    ExecutionEngine.execute_signal ec rc riskCounts st signal body
        tradeset_id now =
      (st, [], { success := false, error := some "Execution halted" }) := by
  unfold ExecutionEngine.execute_signal
  simp [h]


/-- C10: the daily-notional accumulator starts at 0, is untouched by halt
and resume, never decreases across any `execute_signal` call (given
nonnegative order size and prices, which the data model guarantees), and
grows by exactly `order_size * (yes_ask + no_ask)` precisely on a
successful attempt — it is never reset, so `max_daily_notional` bounds
cumulative notional over the engine's lifetime rather than per calendar
day. -/
theorem daily_notional_monotone :
    ExecutionEngine.init.daily_notional = 0 ∧
    (∀ (st : EngineState), (ExecutionEngine.halt st).daily_notional =
        st.daily_notional ∧
      (ExecutionEngine.resume st).daily_notional = st.daily_notional) ∧
    (∀ (ec : ExecutionConfig) (rc : RiskConfig) (riskCounts : String → ℕ)
        (st : EngineState) (signal : TradeSignal) (body : BodyOutcome)
        (tradeset_id : ℕ) (now : ℚ),
      (0 ≤ ec.order_size →
        0 ≤ signal.yes_ask.getD 0 + signal.no_ask.getD 0 →
        st.daily_notional ≤
          (ExecutionEngine.execute_signal ec rc riskCounts st signal body
            tradeset_id now).1.daily_notional) ∧
      (∀ ya na, signal.yes_ask = some ya → signal.no_ask = some na →
        (ExecutionEngine.execute_signal ec rc riskCounts st signal body
          tradeset_id now).1.daily_notional =
          st.daily_notional +
            (if (ExecutionEngine.execute_signal ec rc riskCounts st signal
                body tradeset_id now).2.2.success = true
             then ec.order_size * (ya + na) else 0))) := by
  refine ⟨rfl, fun st => ⟨rfl, rfl⟩, ?_⟩
  intro ec rc riskCounts st signal body tradeset_id now
  by_cases hh : st.halted = true
  · rw [execute_signal_when_halted ec rc riskCounts st signal body
      tradeset_id now hh]
    exact ⟨fun _ _ => le_refl _, fun ya na _ _ => by simp⟩
  · unfold ExecutionEngine.execute_signal
    rw [if_neg hh]
    by_cases ht : signal.is_tradeable = false
    · rw [if_pos ht]
      exact ⟨fun _ _ => le_refl _, fun ya na _ _ => by simp⟩
    · rw [if_neg ht]
      cases hc : ExecutionEngine.check_risk_limits rc riskCounts
          st.daily_notional st.open_positions ec.order_size
          (signal.yes_ask.getD 0 + signal.no_ask.getD 0) with
      | some r =>
        simp only [hc]
        exact ⟨fun _ _ => le_refl _, fun ya na _ _ => by simp⟩
      | none =>
        simp only [hc]
        rcases body with ⟨result, bacts, haltSet⟩ | ⟨msg, bacts, haltSet⟩
        · by_cases hs : result.success = true
          · refine ⟨fun h1 h2 => ?_, fun ya na hya hna => ?_⟩
            · have hm := mul_nonneg h1 h2
              simp [hs]
              try linarith
            · simp [hs, hya, hna]
          · refine ⟨fun h1 h2 => ?_, fun ya na hya hna => ?_⟩
            · simp [hs]
            · simp [hs, hya, hna]
        · refine ⟨fun h1 h2 => ?_, fun ya na hya hna => ?_⟩
          · simp
          · simp [hya, hna]

/-- Witness for C10: a successful paper-style attempt on a fresh engine
grows the accumulator by `order_size * (0.45 + 0.50)`. -/
theorem daily_notional_monotone_witness :
    (ExecutionEngine.execute_signal {} {} (fun _ => 0) ExecutionEngine.init
        sampleTradeSignal (BodyOutcome.ok { success := true } [] false) 1
        1).1.daily_notional =
      ExecutionEngine.init.daily_notional +
        (if (ExecutionEngine.execute_signal {} {} (fun _ => 0)
              ExecutionEngine.init sampleTradeSignal
              (BodyOutcome.ok { success := true } [] false) 1
              1).2.2.success = true
         then ({} : ExecutionConfig).order_size * (45/100 + 50/100)
         else 0) :=
  (daily_notional_monotone.2.2 {} {} (fun _ => 0) ExecutionEngine.init
      sampleTradeSignal (BodyOutcome.ok { success := true } [] false) 1
      1).2 (45/100) (50/100) rfl rfl

/-- C4: partial-fill recovery cancels every leg whose status is still
PENDING, OPEN or PARTIALLY_FILLED, never places any order, marks the
tradeset `partial_fill`, and with `halt_on_partial_fill` set it latches
the halt so that every subsequent signal is refused — no actions, state
unchanged — until an operator resume. -/
theorem handlePartialFill_recovery (rc : RiskConfig) (st : EngineState)
    (market_id : String) (tradeset_id : ℕ)
    (yes_order no_order : Option Order) :
    (∀ o, yes_order = some o →
      o.status = .PENDING ∨ o.status = .OPEN ∨
        o.status = .PARTIALLY_FILLED →
      EngineAction.cancelOrder o.order_id ∈
        (ExecutionEngine.handlePartialFill rc st market_id tradeset_id
          yes_order no_order).2) ∧
    (∀ o, no_order = some o →
      o.status = .PENDING ∨ o.status = .OPEN ∨
        o.status = .PARTIALLY_FILLED →
      EngineAction.cancelOrder o.order_id ∈
        (ExecutionEngine.handlePartialFill rc st market_id tradeset_id
          yes_order no_order).2) ∧
    (∀ m t p s, EngineAction.placeOrder m t p s ∉
      (ExecutionEngine.handlePartialFill rc st market_id tradeset_id
        yes_order no_order).2) ∧
    (EngineAction.updateTradeset tradeset_id "partial_fill"
        none none none none ∈
      (ExecutionEngine.handlePartialFill rc st market_id tradeset_id
        yes_order no_order).2) ∧
    (rc.haltOnPartialFill = true →
      (ExecutionEngine.handlePartialFill rc st market_id tradeset_id
        yes_order no_order).1.halted = true ∧
      ∀ (ec : ExecutionConfig) (riskCounts : String → ℕ)
          (signal : TradeSignal) (body : BodyOutcome) (tid2 : ℕ) (now2 : ℚ),
        ExecutionEngine.execute_signal ec rc riskCounts
            (ExecutionEngine.handlePartialFill rc st market_id tradeset_id
              yes_order no_order).1 signal body tid2 now2 =
          ((ExecutionEngine.handlePartialFill rc st market_id tradeset_id
              yes_order no_order).1, [],
           { success := false, error := some "Execution halted" })) := by
  refine ⟨?_, ?_, ?_, ?_, ?_⟩
  · intro o ho hst
    subst ho
    rcases hst with h | h | h <;>
      simp [ExecutionEngine.handlePartialFill, h]
  · intro o ho hst
    subst ho
    rcases hst with h | h | h <;>
      simp [ExecutionEngine.handlePartialFill, h]
  · intro m t p s
    rcases yes_order with _ | yo <;> rcases no_order with _ | no <;>
      simp [ExecutionEngine.handlePartialFill]
  · simp [ExecutionEngine.handlePartialFill]
  · intro hhalt
    have hstate : (ExecutionEngine.handlePartialFill rc st market_id
        tradeset_id yes_order no_order).1.halted = true := by
      simp [ExecutionEngine.handlePartialFill, hhalt, ExecutionEngine.halt]
    refine ⟨hstate, ?_⟩
    intro ec riskCounts signal body tid2 now2
    exact execute_signal_when_halted ec rc riskCounts _ signal body tid2
      now2 hstate

/-- Order fixture for the partial-fill witness: a PENDING YES leg. -/
def sampleYesOrder : Order :=
  { order_id := "y1", market_id := "m1", token_id := "yt", side := .BUY,
    order_type := .LIMIT, price := 45/100, size := 10, status := .PENDING }

/-- Witness for C4: with the default `halt_on_partial_fill = true`, the
PENDING YES leg is cancelled and the halt is latched. -/
theorem handlePartialFill_recovery_witness :
    EngineAction.cancelOrder "y1" ∈
      (ExecutionEngine.handlePartialFill {} ExecutionEngine.init "m1" 1
        (some sampleYesOrder) none).2 ∧
    (ExecutionEngine.handlePartialFill {} ExecutionEngine.init "m1" 1
      (some sampleYesOrder) none).1.halted = true :=
  ⟨(handlePartialFill_recovery {} ExecutionEngine.init "m1" 1
      (some sampleYesOrder) none).1 sampleYesOrder rfl (Or.inl rfl),
   ((handlePartialFill_recovery {} ExecutionEngine.init "m1" 1
      (some sampleYesOrder) none).2.2.2.2 rfl).1⟩

/-- The gating effect of one completed attempt: in-flight marking followed
by the closing clear and cooldown write. -/
theorem gating_finalize (g : SignalGating) (mid : String) (v : ℚ)
    (hn : mid ∉ g.in_flight) :
    mid ∉ (((g.setInFlight mid).clearInFlight mid).setCooldown mid
      v).in_flight ∧
    lookupAssoc (((g.setInFlight mid).clearInFlight mid).setCooldown mid
      v).cooldowns mid = some v := by
  constructor
  · simp [SignalGating.setInFlight, SignalGating.clearInFlight,
      SignalGating.setCooldown, List.insert_of_not_mem hn]
    exact hn
  · simp [SignalGating.setInFlight, SignalGating.clearInFlight,
      SignalGating.setCooldown, lookupAssoc_setAssoc]

/-- C8: once an attempt begins (not halted, tradeable signal, risk check
passed), the in-flight marking is the very first recorded action — so it
precedes every order placement — and however the attempt ends (success,
failure, or a raised exception) the market leaves the in-flight set and
its cooldown is set to `now + cooldown_seconds`; in the exception case the
tradeset is marked `failed`, an `execution_error` risk event is recorded,
and the call still returns a result so processing continues. -/
theorem execute_signal_inflight_cooldown (ec : ExecutionConfig)
    (rc : RiskConfig) (riskCounts : String → ℕ) (st : EngineState)
    (signal : TradeSignal) (body : BodyOutcome) (tradeset_id : ℕ) (now : ℚ)
    (hh : st.halted = false) (ht : signal.is_tradeable = true)
    (hc : ExecutionEngine.check_risk_limits rc riskCounts st.daily_notional
      st.open_positions ec.order_size
      (signal.yes_ask.getD 0 + signal.no_ask.getD 0) = none)
    (hn : signal.market_id ∉ st.gating.in_flight) :
    (ExecutionEngine.execute_signal ec rc riskCounts st signal body
        tradeset_id now).2.1.head? =
      some (.setInFlight signal.market_id) ∧
    signal.market_id ∉
      (ExecutionEngine.execute_signal ec rc riskCounts st signal body
        tradeset_id now).1.gating.in_flight ∧
    lookupAssoc (ExecutionEngine.execute_signal ec rc riskCounts st signal
        body tradeset_id now).1.gating.cooldowns signal.market_id =
      some (now + ec.cooldown_seconds) ∧
    (∀ msg bacts haltSet, body = .raised msg bacts haltSet →
      EngineAction.updateTradeset tradeset_id "failed" none none none
          none ∈
        (ExecutionEngine.execute_signal ec rc riskCounts st signal body
          tradeset_id now).2.1 ∧
      EngineAction.logRiskEvent "execution_error" (some signal.market_id) ∈
        (ExecutionEngine.execute_signal ec rc riskCounts st signal body
          tradeset_id now).2.1 ∧
      (ExecutionEngine.execute_signal ec rc riskCounts st signal body
        tradeset_id now).2.2.success = false) := by
  unfold ExecutionEngine.execute_signal
  rw [if_neg (by simp [hh]), if_neg (by simp [ht])]
  simp only [hc]
  rcases body with ⟨result, bacts, haltSet⟩ | ⟨msg, bacts, haltSet⟩
  · by_cases hs : result.success = true
    · refine ⟨by simp [hs], ?_, ?_, ?_⟩
      · simpa [hs] using
          (gating_finalize st.gating signal.market_id
            (now + ec.cooldown_seconds) hn).1
      · simpa [hs] using
          (gating_finalize st.gating signal.market_id
            (now + ec.cooldown_seconds) hn).2
      · intro msg2 bacts2 hset2 hcontra
        simp at hcontra
    · refine ⟨by simp [hs], ?_, ?_, ?_⟩
      · simpa [hs] using
          (gating_finalize st.gating signal.market_id
            (now + ec.cooldown_seconds) hn).1
      · simpa [hs] using
          (gating_finalize st.gating signal.market_id
            (now + ec.cooldown_seconds) hn).2
      · intro msg2 bacts2 hset2 hcontra
        simp at hcontra
  · refine ⟨by simp, ?_, ?_, ?_⟩
    · simpa using
        (gating_finalize st.gating signal.market_id
          (now + ec.cooldown_seconds) hn).1
    · simpa using
        (gating_finalize st.gating signal.market_id
          (now + ec.cooldown_seconds) hn).2
    · intro msg2 bacts2 hset2 hcontra
      simp only [BodyOutcome.raised.injEq] at hcontra
      refine ⟨?_, ?_, rfl⟩ <;> simp

/-- Witness for C8: a concrete attempt whose body raises; the trace opens
with the in-flight marking and contains the failure bookkeeping. -/
theorem execute_signal_inflight_cooldown_witness :
    (ExecutionEngine.execute_signal {} {} (fun _ => 0)
        ExecutionEngine.init sampleTradeSignal
        (BodyOutcome.raised "boom" [] false) 1 1).2.1.head? =
      some (.setInFlight "m1") ∧
    "m1" ∉ (ExecutionEngine.execute_signal {} {} (fun _ => 0)
        ExecutionEngine.init sampleTradeSignal
        (BodyOutcome.raised "boom" [] false) 1 1).1.gating.in_flight ∧
    lookupAssoc (ExecutionEngine.execute_signal {} {} (fun _ => 0)
        ExecutionEngine.init sampleTradeSignal
        (BodyOutcome.raised "boom" [] false) 1 1).1.gating.cooldowns "m1" =
      some (1 + ({} : ExecutionConfig).cooldown_seconds) ∧
    (EngineAction.updateTradeset 1 "failed" none none none none ∈
      (ExecutionEngine.execute_signal {} {} (fun _ => 0)
        ExecutionEngine.init sampleTradeSignal
        (BodyOutcome.raised "boom" [] false) 1 1).2.1 ∧
     EngineAction.logRiskEvent "execution_error" (some "m1") ∈
      (ExecutionEngine.execute_signal {} {} (fun _ => 0)
        ExecutionEngine.init sampleTradeSignal
        (BodyOutcome.raised "boom" [] false) 1 1).2.1 ∧
     (ExecutionEngine.execute_signal {} {} (fun _ => 0)
        ExecutionEngine.init sampleTradeSignal
        (BodyOutcome.raised "boom" [] false) 1 1).2.2.success = false) := by
  have h := execute_signal_inflight_cooldown {} {} (fun _ => 0)
    ExecutionEngine.init sampleTradeSignal
    (BodyOutcome.raised "boom" [] false) 1 1 rfl rfl
    (by norm_num [ExecutionEngine.check_risk_limits, ExecutionEngine.init,
      sampleTradeSignal])
    (by simp [ExecutionEngine.init, SignalGating.in_flight])
  exact ⟨h.1, h.2.1, h.2.2.1, h.2.2.2 "boom" [] false rfl⟩

/-- Kill-switch state (src/execution/risk.py, `KillSwitch`): the latch,
the recorded reason, and the list of `kill_switch` risk events it has
appended to the ledger.  In src/main.py the `halt_callback` is wired to
`ExecutionEngine.halt`, so the trigger acts on a paired engine state. -/
structure KSState where
  triggered : Bool := false
  trigger_reason : Option String := none
  events : List String := []
  deriving DecidableEq

/-- `KillSwitch._trigger`: when not yet latched, latch, record exactly one
`kill_switch` event, and invoke the halt callback; a repeated trigger is a
no-op. -/
def KillSwitch.trigger (ks : KSState) (eng : EngineState) (reason : String) :
    KSState × EngineState :=
  if ks.triggered then (ks, eng)
  else
    ({ triggered := true, trigger_reason := some reason,
       events := ks.events ++ ["kill_switch"] },
     ExecutionEngine.halt eng)

/-- `KillSwitch.check_conditions`: compare the rolling-hour risk-event
counts with the three thresholds in source order, trigger on the first
exceeded one, and report whether any threshold fired. -/
def KillSwitch.check_conditions (rc : RiskConfig) (riskCounts : String → ℕ)
    (ks : KSState) (eng : EngineState) : (KSState × EngineState) × Bool :=
  if rc.maxPartialFillsPerHour ≤ riskCounts "partial_fill" then
    (KillSwitch.trigger ks eng "Too many partial fills", true)
  else if rc.max_rejects_per_hour ≤ riskCounts "reject" then
    (KillSwitch.trigger ks eng "Too many order rejects", true)
  else if rc.max_ws_disconnects_per_hour ≤ riskCounts "ws_disconnect" then
    (KillSwitch.trigger ks eng "Too many WebSocket disconnects", true)
  else ((ks, eng), false)

/-- `KillSwitch.reset`: manual unlatch.  The engine halt is not released
here — only `ExecutionEngine.resume` does that. -/
def KillSwitch.reset (ks : KSState) : KSState :=
  if ks.triggered then
    { ks with triggered := false, trigger_reason := none }
  else ks

/-- One kill-switch interaction inside a latched cycle: a direct trigger
call (`manual_trigger` / `_trigger`) or a threshold check on some ledger
counts. -/
inductive KSOp where
  | trigger (reason : String)
  | check (riskCounts : String → ℕ)

/-- Fold a sequence of kill-switch interactions over the paired
kill-switch and engine state. -/
def KillSwitch.runOps (rc : RiskConfig) :
    KSState × EngineState → List KSOp → KSState × EngineState
  | se, [] => se
  | (ks, eng), KSOp.trigger r :: rest =>
      KillSwitch.runOps rc (KillSwitch.trigger ks eng r) rest
  | (ks, eng), KSOp.check counts :: rest =>
      KillSwitch.runOps rc
        ((KillSwitch.check_conditions rc counts ks eng).1) rest

/-- A latched kill switch is invariant under further triggers and checks:
the latch, the engine state, and the recorded events all stay as they
are. -/
theorem runOps_latched_invariant (rc : RiskConfig)
    (p : KSState × EngineState) (ops : List KSOp)
    (ht : p.1.triggered = true) :
    (KillSwitch.runOps rc p ops).1.triggered = true ∧
    (KillSwitch.runOps rc p ops).1.events = p.1.events ∧
    (KillSwitch.runOps rc p ops).2 = p.2 := by
  induction ops generalizing p with
  | nil => exact ⟨ht, rfl, rfl⟩
  | cons op rest ih =>
    rcases p with ⟨ks, eng⟩
    rcases op with r | counts
    · have hstep : KillSwitch.trigger ks eng r = (ks, eng) := by
        unfold KillSwitch.trigger
        simp at ht
        simp [ht]
      simp only [KillSwitch.runOps]
      rw [hstep]
      exact ih (ks, eng) ht
    · have hstep : (KillSwitch.check_conditions rc counts ks eng).1 =
          (ks, eng) := by
        unfold KillSwitch.check_conditions KillSwitch.trigger
        simp at ht
        split_ifs <;> simp [ht]
      simp only [KillSwitch.runOps]
      rw [hstep]
      exact ih (ks, eng) ht

/-- C6: the kill switch is latching and idempotent — a trigger from the
unlatched state latches it, halts the engine, and writes exactly one
`kill_switch` event; thereafter any sequence of further trigger calls and
threshold checks leaves the latch set, the engine halted (it refuses every
signal), and the `kill_switch` event count unchanged, until an operator
reset. -/
theorem kill_switch_latching (rc : RiskConfig) (ks : KSState)
    (eng : EngineState) (reason : String) (ops : List KSOp)
    (h : ks.triggered = false) :
    (KillSwitch.trigger ks eng reason).1.triggered = true ∧
    (KillSwitch.trigger ks eng reason).2.halted = true ∧
    (KillSwitch.trigger ks eng reason).1.events.count "kill_switch" =
      ks.events.count "kill_switch" + 1 ∧
    (KillSwitch.runOps rc (KillSwitch.trigger ks eng reason)
        ops).1.triggered = true ∧
    (KillSwitch.runOps rc (KillSwitch.trigger ks eng reason)
        ops).1.events.count "kill_switch" =
      (KillSwitch.trigger ks eng reason).1.events.count "kill_switch" ∧
    (KillSwitch.runOps rc (KillSwitch.trigger ks eng reason)
        ops).2.halted = true ∧
    (∀ (ec : ExecutionConfig) (riskCounts : String → ℕ)
        (signal : TradeSignal) (body : BodyOutcome) (tid : ℕ) (now : ℚ),
      (ExecutionEngine.execute_signal ec rc riskCounts
        (KillSwitch.runOps rc (KillSwitch.trigger ks eng reason) ops).2
        signal body tid now).2.2.success = false) := by
  have htrig : (KillSwitch.trigger ks eng reason).1.triggered = true := by
    unfold KillSwitch.trigger
    simp [h]
  have hinv := runOps_latched_invariant rc
    (KillSwitch.trigger ks eng reason) ops htrig
  have hhalt : (KillSwitch.trigger ks eng reason).2.halted = true := by
    unfold KillSwitch.trigger ExecutionEngine.halt
    simp [h]
  refine ⟨htrig, hhalt, ?_, hinv.1, ?_, ?_, ?_⟩
  · unfold KillSwitch.trigger
    simp [h]
  · rw [hinv.2.1]
  · rw [hinv.2.2]
    exact hhalt
  · intro ec riskCounts signal body tid now
    rw [execute_signal_when_halted ec rc riskCounts _ signal body tid now
      (by rw [hinv.2.2]; exact hhalt)]

/-- Witness for C6: a fresh kill switch triggered once, then checked with
saturated counts and triggered again, keeps exactly one `kill_switch`
event and stays latched and halted. -/
theorem kill_switch_latching_witness :
    (KillSwitch.trigger {} ExecutionEngine.init "first").1.triggered =
      true ∧
    (KillSwitch.trigger {} ExecutionEngine.init
        "first").1.events.count "kill_switch" =
      (KSState.mk false none []).events.count "kill_switch" + 1 ∧
    (KillSwitch.runOps {} (KillSwitch.trigger {} ExecutionEngine.init
        "first") [KSOp.check (fun _ => 100), KSOp.trigger "again"]
      ).1.events.count "kill_switch" =
      (KillSwitch.trigger {} ExecutionEngine.init
        "first").1.events.count "kill_switch" ∧
    (KillSwitch.runOps {} (KillSwitch.trigger {} ExecutionEngine.init
        "first") [KSOp.check (fun _ => 100), KSOp.trigger "again"]
      ).2.halted = true := by
  have h := kill_switch_latching {} {} ExecutionEngine.init "first"
    [KSOp.check (fun _ => 100), KSOp.trigger "again"] rfl
  exact ⟨h.1, h.2.2.1, h.2.2.2.2.1, h.2.2.2.2.2.1⟩

/-- Composite pipeline state owned by `ArbBot` (src/main.py): order book,
kill switch, execution engine (with the signal gating it drives), the
ledger's `opportunities` rows, and the tradeset id counter (modelled as a
per-attempt counter; its value is immaterial to the opportunity count). -/
structure SysState where
  order_book : OrderBookState := {}
  ks : KSState := {}
  eng : EngineState := {}
  opportunities : List TradeSignal := []
  next_tradeset_id : ℕ := 1
  deriving DecidableEq

/-- The paper-mode body used by the bot: `_execute_paper` packaged as a
`BodyOutcome` (placeholder order ids stand for the uuid-derived ones). -/
def ArbBot.paperBody (fee_rate : ℚ) (market : MarketBook)
    (signal : TradeSignal) (order_size : ℚ) (tid : ℕ) (now : ℚ) :
    BodyOutcome :=
  let out := ExecutionEngine.execute_paper fee_rate market.market_id
    market.yes_token.token_id market.no_token.token_id
    (signal.yes_ask.getD 0) (signal.no_ask.getD 0) order_size tid
    "paper-yes" "paper-no" now
  BodyOutcome.ok
    { success := true, tradeset_id := some tid,
      yes_order := some out.2.1, no_order := some out.2.2 } out.1 false

/-- The pipeline callback (`ArbBot._on_book_update`): apply the snapshot;
for an accepted update run the kill-switch check — which, when it fires,
returns BEFORE the opportunity is logged — then read the market copy,
evaluate, log the signal, and when it is tradeable and the engine is not
halted run the (paper) execution.  `riskCounts` models the rolling-hour
ledger counts read by both the kill switch and the executor pre-check,
`now` the clock. -/
def ArbBot.on_book_update (strat : StrategyConfig) (fee_rate : ℚ)
    (ec : ExecutionConfig) (rc : RiskConfig) (sys : SysState)
    (snap : OrderBookSnapshot) (riskCounts : String → ℕ) (now : ℚ) :
    SysState :=
  match OrderBookState.update_from_snapshot sys.order_book snap with
  | (none, ob2) => { sys with order_book := ob2 }
  | (some market_id, ob2) =>
    let checked := KillSwitch.check_conditions rc riskCounts sys.ks sys.eng
    if checked.2 then
      { sys with order_book := ob2, ks := checked.1.1, eng := checked.1.2 }
    else
      match lookupAssoc ob2.markets market_id with
      | none =>
        { sys with
          order_book := ob2
          ks := checked.1.1
          eng := checked.1.2 }
      | some market =>
        let signal := SignalEngine.evaluate strat fee_rate
          checked.1.2.gating market now
        let sys2 : SysState :=
          { sys with
            order_book := ob2
            ks := checked.1.1
            eng := checked.1.2
            opportunities := sys.opportunities ++ [signal] }
        if signal.is_tradeable && !checked.1.2.halted then
          let stepped := ExecutionEngine.execute_signal ec rc riskCounts
            checked.1.2 signal
            (ArbBot.paperBody fee_rate market signal ec.order_size
              sys2.next_tradeset_id now)
            sys2.next_tradeset_id now
          { sys2 with
            eng := stepped.1
            next_tradeset_id := sys2.next_tradeset_id + 1 }
        else sys2

/-- A run of the pipeline over a stream of snapshots, each paired with the
ledger counts and clock at the moment it is processed. -/
def ArbBot.run_updates (strat : StrategyConfig) (fee_rate : ℚ)
    (ec : ExecutionConfig) (rc : RiskConfig) (sys : SysState) :
    List (OrderBookSnapshot × (String → ℕ) × ℚ) → SysState
  | [] => sys
  | (snap, counts, now) :: rest =>
      ArbBot.run_updates strat fee_rate ec rc
        (ArbBot.on_book_update strat fee_rate ec rc sys snap counts now)
        rest

/-- Spec-side counter for the amended C7: the number of updates in the
stream that are accepted by `update_from_snapshot` and not dropped by a
firing kill-switch check. -/
def ArbBot.loggedCount (strat : StrategyConfig) (fee_rate : ℚ)
    (ec : ExecutionConfig) (rc : RiskConfig) (sys : SysState) :
    List (OrderBookSnapshot × (String → ℕ) × ℚ) → ℕ
  | [] => 0
  | (snap, counts, now) :: rest =>
      (if (OrderBookState.update_from_snapshot sys.order_book snap).1.isSome
          ∧ (KillSwitch.check_conditions rc counts sys.ks sys.eng).2 = false
       then 1 else 0) +
      ArbBot.loggedCount strat fee_rate ec rc
        (ArbBot.on_book_update strat fee_rate ec rc sys snap counts now)
        rest

/-- An accepted snapshot leaves its market looked up in the new state. -/
theorem update_some_lookup (st : OrderBookState) (snap : OrderBookSnapshot)
    (mid : String) (ob2 : OrderBookState)
    (h : st.update_from_snapshot snap = (some mid, ob2)) :
    ∃ m, lookupAssoc ob2.markets mid = some m := by
  unfold OrderBookState.update_from_snapshot at h
  split at h
  · simp at h
  · split at h
    · simp at h
    · rename_i market hmkt
      split at h
      · rw [Prod.mk.injEq, Option.some.injEq] at h
        obtain ⟨h1, h2⟩ := h
        subst h1
        subst h2
        exact ⟨_, lookupAssoc_setAssoc _ _ _⟩
      · split at h
        · rw [Prod.mk.injEq, Option.some.injEq] at h
          obtain ⟨h1, h2⟩ := h
          subst h1
          subst h2
          exact ⟨_, lookupAssoc_setAssoc _ _ _⟩
        · simp at h

/-- One pipeline step logs exactly one opportunity when the update is
accepted and the kill switch does not fire, and none otherwise. -/
theorem on_book_update_opportunity_count (strat : StrategyConfig)
    (fee_rate : ℚ) (ec : ExecutionConfig) (rc : RiskConfig) (sys : SysState)
    (snap : OrderBookSnapshot) (riskCounts : String → ℕ) (now : ℚ) :
    (ArbBot.on_book_update strat fee_rate ec rc sys snap riskCounts
        now).opportunities.length =
      sys.opportunities.length +
        (if (OrderBookState.update_from_snapshot sys.order_book
              snap).1.isSome ∧
            (KillSwitch.check_conditions rc riskCounts sys.ks
              sys.eng).2 = false
         then 1 else 0) := by
  unfold ArbBot.on_book_update
  rcases hupd : OrderBookState.update_from_snapshot sys.order_book snap
    with ⟨omid, ob2⟩
  rcases omid with _ | mid
  · simp [hupd]
  · rcases hfire : (KillSwitch.check_conditions rc riskCounts sys.ks
      sys.eng).2 with _ | _
    · obtain ⟨m, hm⟩ := update_some_lookup sys.order_book snap mid ob2 hupd
      simp only [hupd, hfire, hm]
      split
      · simp_all
      · split <;> simp
    · simp [hupd, hfire]

/-- C7 amended: over any run, the number of `opportunities` rows grows by
exactly the number of accepted updates on which the kill-switch check did
not fire; an accepted update that trips the kill switch is dropped before
`log_opportunity`, so it produces no row. -/
theorem opportunities_roundtrip_amended (strat : StrategyConfig)
    (fee_rate : ℚ) (ec : ExecutionConfig) (rc : RiskConfig) (sys : SysState)
    (inputs : List (OrderBookSnapshot × (String → ℕ) × ℚ)) :
    (ArbBot.run_updates strat fee_rate ec rc sys
        inputs).opportunities.length =
      sys.opportunities.length +
        ArbBot.loggedCount strat fee_rate ec rc sys inputs := by
  induction inputs generalizing sys with
  | nil => simp [ArbBot.run_updates, ArbBot.loggedCount]
  | cons x rest ih =>
    rcases x with ⟨snap, counts, now⟩
    simp only [ArbBot.run_updates, ArbBot.loggedCount]
    rw [ih, on_book_update_opportunity_count]
    omega

/-- Counterexample to C7 as stated: an accepted book update processed
while a kill-switch threshold is exceeded produces no `opportunities`
row, so rows (0) ≠ accepted updates (1) for this run. -/
theorem opportunities_roundtrip_cex :
    (OrderBookState.update_from_snapshot staleBookState
        staleSnapshot).1.isSome = true ∧
    (ArbBot.on_book_update {} (2/100) {} {}
        { order_book := staleBookState } staleSnapshot (fun _ => 100)
        50).opportunities.length = 0 := by
  constructor
  · norm_num [staleBookState, staleSnapshot,
      OrderBookState.update_from_snapshot, lookupAssoc]
  · norm_num [ArbBot.on_book_update, staleBookState, staleSnapshot,
      OrderBookState.update_from_snapshot, lookupAssoc, setAssoc,
      applySnapshotToToken, KillSwitch.check_conditions, KillSwitch.trigger,
      ExecutionEngine.halt]
